/-
Verification of the filewatcher event pipeline (src/main.py) against its
specification.  The Python source is shallowly embedded: the event handler
(`on_any_event`), the stability gate (`check_file_stability`) and the
dispatcher (`post_event`) become pure Lean functions over explicit state and
environment values.  External collaborators (the `fnmatch`, `os.path`,
`json`, `uuid` and `requests` libraries) are modelled at their documented
interfaces.  Wall-clock times are rationals, file sizes naturals.
-/
import Mathlib

set_option maxHeartbeats 1000000

/-! ## Logging model

Every log line the pipeline emits for an event is tagged with the event's
correlation identifier.  We record the level and a structured tag instead of
the formatted message text. -/

/-- Log severity, mirroring the `logging` levels used in `src/main.py`. -/
inductive LogLevel where
  | info
  | warning
  | error
deriving DecidableEq, Repr

/-- Which log statement of `src/main.py` produced a line (structured stand-in
for the formatted message). -/
inductive LogTag where
  /-- line 59: detection of an accepted event -/
  | detected
  /-- line 71: file vanished during the stability check -/
  | stabilityVanished
  /-- line 92: exception caught inside `check_file_stability` -/
  | stabilityIOError (msg : String)
  /-- line 82: size changed, stability counter reset -/
  | stabilityReset (oldSize newSize : Nat)
  /-- line 88: file declared stable -/
  | stabilityStable
  /-- line 101: stability check starting -/
  | stabilityStart
  /-- line 103: stability check failed, event dropped -/
  | stabilityFailed
  /-- line 121: HTTP POST about to be sent -/
  | sending
  /-- line 127: HTTP POST succeeded -/
  | postSuccess
  /-- line 125: non-200 HTTP response -/
  | postHTTPError (status : Nat) (body : String)
  /-- line 129: exception caught inside `post_event` -/
  | postException (msg : String)
deriving DecidableEq, Repr

/-- One log line of the event pipeline.  `eventId` is the correlation
identifier interpolated into the message. -/
structure LogLine where
  level : LogLevel
  eventId : Nat
  tag : LogTag
deriving DecidableEq, Repr

/-! ## Model of `fnmatch.fnmatch` (Python standard library, POSIX)

`src/main.py` line 48 calls `fnmatch.fnmatch(event.src_path, pattern)`.
On POSIX `os.path.normcase` is the identity, so `fnmatch` is case-sensitive
matching of the whole string against the glob: `*` matches any sequence,
`?` any single character, `[seq]` a character class (leading `!` negates,
`a-b` is a range, a `]` right after the opening is a literal member, and an
unterminated `[` is a literal `[`). -/

/-- Membership of a character in the body of a `[...]` class: `a-b` between
two characters is a range, otherwise characters are literal (so a leading or
trailing `-` is literal). -/
def classMem : List Char → Char → Bool
  | [], _ => false
  | [a], c => a = c
  | a :: '-' :: b :: rest, c => (a ≤ c && c ≤ b) || classMem rest c
  | a :: rest, c => a = c || classMem rest c

/-- Split a class body at its first `]`, returning the members and the rest
of the pattern; `none` when the class is unterminated. -/
def findClose : List Char → Option (List Char × List Char)
  | [] => none
  | ']' :: r => some ([], r)
  | c :: r => (findClose r).map (fun (p : List Char × List Char) => (c :: p.1, p.2))

/-- Parse the part of a pattern following `[`: handle a leading `!` and a
literal `]` member, and locate the closing `]`.  Returns
(negated, members, rest-of-pattern), or `none` for an unterminated class. -/
def parseClass (ps : List Char) : Option (Bool × List Char × List Char) :=
  let (neg, body) := match ps with
    | '!' :: r => (true, r)
    | _ => (false, ps)
  let split := match body with
    | ']' :: rest => (findClose rest).map (fun (p : List Char × List Char) => (']' :: p.1, p.2))
    | _ => findClose body
  split.map (fun (p : List Char × List Char) => (neg, p.1, p.2))

/-- Glob matching of a string against a pattern, char-list form, with fuel
for structural recursion (every step shortens pattern + string, so
`pat.length + s.length + 1` fuel is always enough).  Model of the CPython
`fnmatch` semantics on POSIX. -/
def globMatchL (fuel : Nat) (pat s : List Char) : Bool :=
  match fuel with
  | 0 => false
  | fuel + 1 =>
    match pat, s with
    | [], [] => true
    | [], _ :: _ => false
    | '*' :: ps, s =>
      globMatchL fuel ps s ||
        (match s with
         | [] => false
         | _ :: cs => globMatchL fuel ('*' :: ps) cs)
    | '?' :: _, [] => false
    | '?' :: ps, _ :: cs => globMatchL fuel ps cs
    | '[' :: ps, s =>
      match parseClass ps with
      | none =>
        match s with
        | [] => false
        | c :: cs => ('[' = c) && globMatchL fuel ps cs
      | some (neg, cls, rest) =>
        match s with
        | [] => false
        | c :: cs => (classMem cls c != neg) && globMatchL fuel rest cs
    | _ :: _, [] => false
    | p :: ps, c :: cs => (p = c) && globMatchL fuel ps cs

/-- Model of `fnmatch.fnmatch` on strings (POSIX, case-sensitive). -/
def fnmatchMatch (name pattern : String) : Bool :=
  globMatchL (pattern.toList.length + name.toList.length + 1) pattern.toList name.toList

example : fnmatchMatch "/data/a.csv" "*.csv" = true := by decide
example : fnmatchMatch "/data/a.txt" "*.csv" = false := by decide
example : fnmatchMatch "/data/a.csv" "*.*" = true := by decide

/-! ## Models of `os.path` helpers (Python standard library, POSIX)

`post_event` uses `os.path.abspath` and `os.path.split`; the stability gate
uses `os.path.exists` / `os.path.getsize` (modelled later as observations).
`os.path.expandvars` resolves `$NAME` and `$\x7bNAME\x7d` references against
the process environment, leaving unresolved references untouched. -/

/-- Model of `os.path.abspath` for already-normalized paths: an absolute
path is returned unchanged, a relative one is joined to the current working
directory (the `normpath` cleanup of redundant separators is elided). -/
def absPath (cwd p : String) : String :=
  match p.toList with
  | '/' :: _ => p
  | _ => cwd ++ "/" ++ p

/-- Model of `os.path.split`: split at the last `/`; trailing slashes are
stripped from the head unless the head consists only of slashes. -/
def splitPath (p : String) : String × String :=
  let cs := p.toList
  let tail := (cs.reverse.takeWhile (fun c => c ≠ '/')).reverse
  let headAll := cs.take (cs.length - tail.length)
  let headStripped := (headAll.reverse.dropWhile (fun c => c = '/')).reverse
  let head := if headStripped.isEmpty && !headAll.isEmpty then headAll else headStripped
  (String.mk head, String.mk tail)

example : splitPath "/data/b.csv" = ("/data", "b.csv") := by decide
example : splitPath "/b.csv" = ("/", "b.csv") := by decide

/-- The characters CPython's `expandvars` accepts in a bare `$NAME`
reference (ASCII word characters). -/
def isEnvNameChar (c : Char) : Bool :=
  c.isAlpha || c.isDigit || c = '_'

/-- Opening brace character (written by code point to keep brace literals
out of string syntax). -/
def openBrace : Char := Char.ofNat 123

/-- Closing brace character. -/
def closeBrace : Char := Char.ofNat 125

/-- Worker for the `os.path.expandvars` model.  One fuel unit is spent per
`$` handled or literal character copied, and every step consumes at least
one character, so fuel equal to the input length is always enough.
A `$` followed by a word run looks the name up in `env`; a `$` followed by
a brace-delimited (possibly empty) name likewise; an unresolvable or
ill-formed reference is copied through unchanged, and substituted values
are not rescanned. -/
def expandGo (env : String → Option String) : Nat → List Char → List Char
  | 0, cs => cs
  | _ + 1, [] => []
  | fuel + 1, c :: cs =>
    if c ≠ '$' then c :: expandGo env fuel cs
    else
      match cs with
      | [] => [c]
      | d :: ds =>
        if d = openBrace then
          let inner := ds.takeWhile (fun x => x ≠ closeBrace)
          match ds.dropWhile (fun x => x ≠ closeBrace) with
          | [] => c :: expandGo env fuel (d :: ds)
          | _ :: rest =>
            match env (String.mk inner) with
            | some v => v.toList ++ expandGo env fuel rest
            | none => c :: d :: (inner ++ closeBrace :: expandGo env fuel rest)
        else if isEnvNameChar d then
          let name := (d :: ds).takeWhile isEnvNameChar
          let rest := (d :: ds).dropWhile isEnvNameChar
          match env (String.mk name) with
          | some v => v.toList ++ expandGo env fuel rest
          | none => c :: (name ++ expandGo env fuel rest)
        else
          c :: expandGo env fuel (d :: ds)

/-- Model of `os.path.expandvars` against an environment mapping. -/
def expandVars (env : String → Option String) (s : String) : String :=
  String.mk (expandGo env s.toList.length s.toList)

example :
    expandVars (fun n => if n = "TOKEN" then some "abc123" else none)
      "Bearer $\x7bTOKEN\x7d" = "Bearer abc123" := by decide

example :
    expandVars (fun _ => none) "Bearer $\x7bTOKEN\x7d" = "Bearer $\x7bTOKEN\x7d" := by
  decide

/-! ## Model of `json.dumps` for the outbound payload

`post_event` serializes `\x7b"filepath": d, "filename": n, "event_id": e\x7d`
with `json.dumps` default settings: key order is dict insertion order,
separators are a comma-space and colon-space, strings escape `"`, `\`,
control characters and non-ASCII (modelled here for the basic plane). -/

/-- Lowercase hex digit for a value below 16. -/
def hexDigit (n : Nat) : Char :=
  if n < 10 then Char.ofNat (48 + n) else Char.ofNat (87 + n % 16)

/-- Four-digit lowercase hex rendering used by JSON `\uXXXX` escapes. -/
def hex4 (n : Nat) : String :=
  String.mk [hexDigit (n / 4096 % 16), hexDigit (n / 256 % 16),
    hexDigit (n / 16 % 16), hexDigit (n % 16)]

/-- JSON escaping of one character, `ensure_ascii` style: characters outside
the printable ASCII range 0x20-0x7e become escapes. -/
def jsonEscapeChar (c : Char) : String :=
  if c = '"' then "\\\""
  else if c = '\\' then "\\\\"
  else if c = '\n' then "\\n"
  else if c = '\r' then "\\r"
  else if c = '\t' then "\\t"
  else if c = Char.ofNat 8 then "\\b"
  else if c = Char.ofNat 12 then "\\f"
  else if c.toNat < 32 || 126 < c.toNat then "\\u" ++ hex4 c.toNat
  else String.singleton c

/-- A JSON string literal for `s`. -/
def jsonString (s : String) : String :=
  "\"" ++ String.join (s.toList.map jsonEscapeChar) ++ "\""

/-- The payload dict built in `post_event` (src/main.py lines 107-111). -/
structure Payload where
  filepath : String
  filename : String
  event_id : String
deriving DecidableEq, Repr

/-- Model of `json.dumps(payload)` for the three-field payload dict. -/
def jsonDumpsPayload (p : Payload) : String :=
  "\x7b" ++ jsonString "filepath" ++ ": " ++ jsonString p.filepath ++ ", " ++
    jsonString "filename" ++ ": " ++ jsonString p.filename ++ ", " ++
    jsonString "event_id" ++ ": " ++ jsonString p.event_id ++ "\x7d"

example :
    jsonDumpsPayload { filepath := "/data", filename := "b.csv", event_id := "7" } =
      "\x7b\"filepath\": \"/data\", \"filename\": \"b.csv\", \"event_id\": \"7\"\x7d" := by
  decide

/-! ## The event handler (`Handler`, src/main.py lines 34-61)

`RawEvent` mirrors the watchdog event object at the interface described in
the source: a path, an event-type string and a directory flag.  The mutable
handler fields `last_event_time` (the debounce map) and the uuid4 draw are
made explicit: the identifier supply of `uuid.uuid4` (an external library
guaranteeing globally unique values) is modelled as a counter of fresh
numbers, so distinct draws are distinct by construction. -/

/-- A raw filesystem notification as delivered by the watchdog library. -/
structure RawEvent where
  src_path : String
  event_type : String
  is_directory : Bool
deriving DecidableEq, Repr

/-- The configuration fields of `Handler` set in `__init__`
(src/main.py lines 35-44); immutable after construction. -/
structure HandlerConfig where
  event_types : List String
  post_url : String
  authentication_header : String
  file_extension_pattern : String
  debounce_seconds : ℚ
  file_stability_check_enabled : Bool
  file_stability_wait_seconds : Nat
deriving DecidableEq, Repr

/-- Model of `Handler.__init__` (src/main.py lines 35-45): note that
`debounce_seconds` is hard-coded to 1.0, not a constructor parameter. -/
def mkHandler (event_types : List String)
    (post_url authentication_header file_extension_pattern : String)
    (file_stability_check_enabled : Bool) (file_stability_wait_seconds : Nat) :
    HandlerConfig :=
  { event_types, post_url, authentication_header, file_extension_pattern,
    debounce_seconds := 1,
    file_stability_check_enabled, file_stability_wait_seconds }

/-- The mutable state of `Handler`: the debounce map `last_event_time`
(path, last accepted time) and the fresh-identifier counter standing in for
the uuid4 supply. -/
structure HandlerState where
  last_event_time : List (String × ℚ)
  nextId : Nat
deriving DecidableEq, Repr

/-- Model of `self.last_event_time.get(path, 0)` (src/main.py line 52). -/
def lookupTime (m : List (String × ℚ)) (p : String) : ℚ :=
  match m.find? (fun e => e.1 = p) with
  | some e => e.2
  | none => 0

/-- Model of `self.last_event_time[path] = t` (src/main.py line 57):
replace the entry for `p`, or append one. -/
def insertTime (m : List (String × ℚ)) (p : String) (t : ℚ) : List (String × ℚ) :=
  match m with
  | [] => [(p, t)]
  | e :: rest => if e.1 = p then (p, t) :: rest else e :: insertTime rest p t

/-- An accepted event handed to a dispatch thread (src/main.py lines 58-61):
the raw event, its fresh correlation identifier, and the acceptance time. -/
structure Dispatched where
  event : RawEvent
  event_id : Nat
  time : ℚ
deriving DecidableEq, Repr

/-- Model of `Handler.on_any_event` (src/main.py lines 47-61).  `now` is the
value of `time.time()`.  Returns the updated handler state, the dispatch
started on a fresh thread (if any), and the log lines emitted. -/
def onAnyEvent (cfg : HandlerConfig) (st : HandlerState) (ev : RawEvent) (now : ℚ) :
    HandlerState × Option Dispatched × List LogLine :=
  if ev.is_directory || !(fnmatchMatch ev.src_path cfg.file_extension_pattern) then
    (st, none, [])
  else
    let last_time := lookupTime st.last_event_time ev.src_path
    if now - last_time < cfg.debounce_seconds then
      (st, none, [])
    else if cfg.event_types.contains ev.event_type then
      ({ last_event_time := insertTime st.last_event_time ev.src_path now,
         nextId := st.nextId + 1 },
       some { event := ev, event_id := st.nextId, time := now },
       [{ level := .info, eventId := st.nextId, tag := .detected }])
    else
      (st, none, [])

/-- A run of the handler over a timed sequence of raw notifications,
threading the handler state and collecting the dispatches and logs. -/
def runEvents (cfg : HandlerConfig) :
    HandlerState → List (RawEvent × ℚ) → HandlerState × List Dispatched × List LogLine
  | st, [] => (st, [], [])
  | st, (ev, t) :: rest =>
    let r1 := onAnyEvent cfg st ev t
    let r2 := runEvents cfg r1.1 rest
    (r2.1, r1.2.1.toList ++ r2.2.1, r1.2.2 ++ r2.2.2)

/-! ## The stability gate (`check_file_stability`, src/main.py lines 63-93)

The loop samples the file once per second.  What each iteration observes is
abstracted as a `SizeObs`: the file has vanished (`os.path.exists` false,
line 70), reading the size raised an exception that the function's `try`
block catches (line 91), or a size was read.  The loop body has no other
exits.  `fuel` bounds the number of loop iterations the model executes;
`none` means the loop was still running after `fuel` iterations (the real
loop does not terminate on, e.g., a forever-growing file). -/

/-- One per-second observation of the watched file. -/
inductive SizeObs where
  | vanished
  | ioError (msg : String)
  | size (n : Nat)
deriving DecidableEq, Repr

/-- Model of the `while stable_count < wait` loop of `check_file_stability`
(src/main.py lines 69-89), with the accumulated log lines made explicit.
`i` is the index of the next observation, `stable_count` and `last_size`
are the loop variables of the source. -/
def stabLoop (wait : Nat) (obs : Nat → SizeObs) (eid : Nat) (fuel i stable_count : Nat)
    (last_size : Option Nat) (logs : List LogLine) : Option (Bool × List LogLine) :=
  if wait ≤ stable_count then
    some (true, logs ++ [{ level := .info, eventId := eid, tag := .stabilityStable }])
  else
    match fuel with
    | 0 => none
    | fuel + 1 =>
      match obs i with
      | .vanished =>
        some (false, logs ++
          [{ level := .warning, eventId := eid, tag := .stabilityVanished }])
      | .ioError m =>
        some (false, logs ++
          [{ level := .error, eventId := eid, tag := .stabilityIOError m }])
      | .size n =>
        match last_size with
        | none => stabLoop wait obs eid fuel (i + 1) stable_count (some n) logs
        | some m =>
          if n = m then
            stabLoop wait obs eid fuel (i + 1) (stable_count + 1) (some n) logs
          else
            stabLoop wait obs eid fuel (i + 1) 0 (some n)
              (logs ++ [{ level := .info, eventId := eid, tag := .stabilityReset m n }])

/-- Model of `Handler.check_file_stability` (src/main.py lines 63-93):
run the sampling loop from its initial state (`stable_count = 0`,
`last_size = None`).  Returns `some (result, logs)` when the loop returns
within `fuel` iterations, `none` otherwise. -/
def checkFileStability (wait : Nat) (obs : Nat → SizeObs) (eid : Nat) (fuel : Nat) :
    Option (Bool × List LogLine) :=
  stabLoop wait obs eid fuel 0 0 none []

/-! ## The dispatcher (`post_event`, src/main.py lines 95-129)

One dispatch runs in its own thread against a `DispatchEnv` describing the
world it encounters: the working directory (for `os.path.abspath`), the
process environment (for `os.path.expandvars`), the boolean that
`check_file_stability` returned (it always returns a boolean when it
returns, see the stability theorems), optional injected exceptions at the
payload-construction and header-resolution steps, and the network call's
result — either a response or a raised exception.  `postEventTry` is the
body of the `try` block: a thrown exception carries along the side effects
(issued requests, emitted logs) that happened before it; `postEvent` wraps
it in the `except` handler of line 128. -/

/-- An HTTP response as seen through the `requests` library. -/
structure HttpResponse where
  status_code : Nat
  text : String
deriving DecidableEq, Repr

/-- An outbound HTTP request issued via `requests.post`
(src/main.py line 122). -/
structure HttpRequest where
  method : String
  url : String
  headers : List (String × String)
  body : String
deriving DecidableEq, Repr

/-- The environment one dispatch thread runs against. -/
structure DispatchEnv where
  cwd : String
  env : String → Option String
  stabilityResult : Bool
  payloadExn : Option String
  headerExn : Option String
  postResult : Except String HttpResponse

/-- How one dispatch ends. -/
inductive PostOutcome where
  | dropped
  | success
  | httpError (status : Nat) (body : String)
  | exceptionCaught (msg : String)
deriving DecidableEq, Repr

/-- The body of the `try` block of `post_event` (src/main.py lines 96-127).
An `Except.error` is a Python exception escaping the block; it carries the
requests already issued and logs already emitted. -/
def postEventTry (cfg : HandlerConfig) (denv : DispatchEnv) (ev : RawEvent) (eid : Nat) :
    Except (String × List HttpRequest × List LogLine)
      (PostOutcome × List HttpRequest × List LogLine) :=
  let file_path := absPath denv.cwd ev.src_path
  let logs0 : List LogLine :=
    if cfg.file_stability_check_enabled then
      [{ level := .info, eventId := eid, tag := .stabilityStart }]
    else []
  if cfg.file_stability_check_enabled && !denv.stabilityResult then
    .ok (.dropped, [],
      logs0 ++ [{ level := .warning, eventId := eid, tag := .stabilityFailed }])
  else
    match denv.payloadExn with
    | some m => .error (m, [], logs0)
    | none =>
      let dn := splitPath file_path
      let payload : Payload :=
        { filepath := dn.1, filename := dn.2, event_id := toString eid }
      let payload_json := jsonDumpsPayload payload
      match denv.headerExn with
      | some m => .error (m, [], logs0)
      | none =>
        let auth_header := expandVars denv.env cfg.authentication_header
        let headers := [("Authorization", auth_header),
                        ("Content-Type", "application/json"),
                        ("Accept", "application/json")]
        let req : HttpRequest :=
          { method := "POST", url := cfg.post_url, headers, body := payload_json }
        let logs1 := logs0 ++ [{ level := .info, eventId := eid, tag := .sending }]
        match denv.postResult with
        | .error m => .error (m, [req], logs1)
        | .ok resp =>
          if resp.status_code ≠ 200 then
            .ok (.httpError resp.status_code resp.text, [req], logs1 ++
              [{ level := .error, eventId := eid,
                 tag := .postHTTPError resp.status_code resp.text }])
          else
            .ok (.success, [req], logs1 ++
              [{ level := .info, eventId := eid, tag := .postSuccess }])

/-- Model of `Handler.post_event` (src/main.py lines 95-129): the `try`
body wrapped in the `except` handler, which converts any escaped exception
into an error log line tagged with the correlation identifier. -/
def postEvent (cfg : HandlerConfig) (denv : DispatchEnv) (ev : RawEvent) (eid : Nat) :
    PostOutcome × List HttpRequest × List LogLine :=
  match postEventTry cfg denv ev eid with
  | .ok r => r
  | .error (m, reqs, logs) =>
    (.exceptionCaught m, reqs,
      logs ++ [{ level := .error, eventId := eid, tag := .postException m }])

/-! ## Unfolding lemmas for the stability loop -/

/-- The loop exits with `True` as soon as `stable_count` reaches `wait`. -/
lemma stabLoop_stable (wait : Nat) (obs : Nat → SizeObs) (eid fuel i sc : Nat)
    (ls : Option Nat) (logs : List LogLine) (h : wait ≤ sc) :
    stabLoop wait obs eid fuel i sc ls logs =
      some (true, logs ++ [{ level := .info, eventId := eid, tag := .stabilityStable }]) := by
  unfold stabLoop
  rw [if_pos h]

/-- With exhausted fuel and the loop condition still true, the model reports
the loop as still running. -/
lemma stabLoop_out_of_fuel (wait : Nat) (obs : Nat → SizeObs) (eid i sc : Nat)
    (ls : Option Nat) (logs : List LogLine) (h : ¬ wait ≤ sc) :
    stabLoop wait obs eid 0 i sc ls logs = none := by
  unfold stabLoop
  rw [if_neg h]

/-- A vanished file at any checkpoint returns `False` with a warning line. -/
lemma stabLoop_vanished (wait : Nat) (obs : Nat → SizeObs) (eid fuel i sc : Nat)
    (ls : Option Nat) (logs : List LogLine) (h : ¬ wait ≤ sc)
    (hobs : obs i = SizeObs.vanished) :
    stabLoop wait obs eid (fuel + 1) i sc ls logs =
      some (false, logs ++
        [{ level := .warning, eventId := eid, tag := .stabilityVanished }]) := by
  unfold stabLoop
  rw [if_neg h]
  simp [hobs]

/-- An I/O error reading the size at any checkpoint returns `False` with an
error line. -/
lemma stabLoop_ioError (wait : Nat) (obs : Nat → SizeObs) (eid fuel i sc : Nat)
    (ls : Option Nat) (logs : List LogLine) (m : String) (h : ¬ wait ≤ sc)
    (hobs : obs i = SizeObs.ioError m) :
    stabLoop wait obs eid (fuel + 1) i sc ls logs =
      some (false, logs ++
        [{ level := .error, eventId := eid, tag := .stabilityIOError m }]) := by
  unfold stabLoop
  rw [if_neg h]
  simp [hobs]

/-- The first size reading only records the baseline. -/
lemma stabLoop_first_size (wait : Nat) (obs : Nat → SizeObs) (eid fuel i sc : Nat)
    (logs : List LogLine) (n : Nat) (h : ¬ wait ≤ sc) (hobs : obs i = SizeObs.size n) :
    stabLoop wait obs eid (fuel + 1) i sc none logs =
      stabLoop wait obs eid fuel (i + 1) sc (some n) logs := by
  conv_lhs => unfold stabLoop
  rw [if_neg h]
  simp [hobs]

/-- An unchanged size reading increments the stable counter. -/
lemma stabLoop_same_size (wait : Nat) (obs : Nat → SizeObs) (eid fuel i sc : Nat)
    (logs : List LogLine) (n : Nat) (h : ¬ wait ≤ sc) (hobs : obs i = SizeObs.size n) :
    stabLoop wait obs eid (fuel + 1) i sc (some n) logs =
      stabLoop wait obs eid fuel (i + 1) (sc + 1) (some n) logs := by
  conv_lhs => unfold stabLoop
  rw [if_neg h]
  simp [hobs]

/-- A changed size reading resets the counter and logs the reset. -/
lemma stabLoop_changed_size (wait : Nat) (obs : Nat → SizeObs) (eid fuel i sc : Nat)
    (logs : List LogLine) (n m : Nat) (h : ¬ wait ≤ sc) (hobs : obs i = SizeObs.size n)
    (hne : n ≠ m) :
    stabLoop wait obs eid (fuel + 1) i sc (some m) logs =
      stabLoop wait obs eid fuel (i + 1) 0 (some n)
        (logs ++ [{ level := .info, eventId := eid, tag := .stabilityReset m n }]) := by
  conv_lhs => unfold stabLoop
  rw [if_neg h]
  simp [hobs, hne]

/-- On a constant size sequence the loop, already holding the baseline,
returns stable exactly when the remaining fuel covers the missing
`wait - stable_count` confirming samples. -/
lemma stabLoop_const (wait : Nat) (obs : Nat → SizeObs) (eid s : Nat)
    (hconst : ∀ i, obs i = SizeObs.size s) :
    ∀ fuel i sc logs, sc < wait →
      stabLoop wait obs eid fuel i sc (some s) logs =
        if wait ≤ sc + fuel then
          some (true, logs ++
            [{ level := .info, eventId := eid, tag := .stabilityStable }])
        else none := by
  intro fuel
  induction fuel with
  | zero =>
    intro i sc logs hsc
    rw [stabLoop_out_of_fuel wait obs eid i sc (some s) logs (by omega),
      if_neg (by omega)]
  | succ fuel ih =>
    intro i sc logs hsc
    rw [stabLoop_same_size wait obs eid fuel i sc logs s (by omega) (hconst i)]
    by_cases h2 : sc + 1 < wait
    · rw [ih (i + 1) (sc + 1) logs h2]
      have ha : sc + 1 + fuel = sc + (fuel + 1) := by omega
      rw [ha]
    · rw [stabLoop_stable wait obs eid fuel (i + 1) (sc + 1) (some s) logs (by omega),
        if_pos (by omega)]

/-- Whenever the loop returns `False`, the emitted logs contain the vanish
warning or the I/O error line: those are the only two `False` exits. -/
lemma stabLoop_false_has_abort (wait : Nat) (obs : Nat → SizeObs) (eid : Nat) :
    ∀ fuel i sc ls logs outLogs,
      stabLoop wait obs eid fuel i sc ls logs = some (false, outLogs) →
      ∃ l ∈ outLogs, (l.level = .warning ∧ l.tag = .stabilityVanished) ∨
        (l.level = .error ∧ ∃ m, l.tag = .stabilityIOError m) := by
  intro fuel
  induction fuel with
  | zero =>
    intro i sc ls logs outLogs h
    by_cases hsc : wait ≤ sc
    · rw [stabLoop_stable wait obs eid 0 i sc ls logs hsc] at h
      simp at h
    · rw [stabLoop_out_of_fuel wait obs eid i sc ls logs hsc] at h
      simp at h
  | succ fuel ih =>
    intro i sc ls logs outLogs h
    by_cases hsc : wait ≤ sc
    · rw [stabLoop_stable wait obs eid (fuel + 1) i sc ls logs hsc] at h
      simp at h
    · cases hobs : obs i with
      | vanished =>
        rw [stabLoop_vanished wait obs eid fuel i sc ls logs hsc hobs] at h
        simp only [Option.some.injEq, Prod.mk.injEq] at h
        refine ⟨{ level := .warning, eventId := eid, tag := .stabilityVanished }, ?_, ?_⟩
        · rw [← h.2]
          exact List.mem_append_right logs (List.mem_singleton_self _)
        · exact Or.inl ⟨rfl, rfl⟩
      | ioError m =>
        rw [stabLoop_ioError wait obs eid fuel i sc ls logs m hsc hobs] at h
        simp only [Option.some.injEq, Prod.mk.injEq] at h
        refine ⟨{ level := .error, eventId := eid, tag := .stabilityIOError m }, ?_, ?_⟩
        · rw [← h.2]
          exact List.mem_append_right logs (List.mem_singleton_self _)
        · exact Or.inr ⟨rfl, m, rfl⟩
      | size n =>
        cases ls with
        | none =>
          rw [stabLoop_first_size wait obs eid fuel i sc logs n hsc hobs] at h
          exact ih (i + 1) sc (some n) logs outLogs h
        | some m =>
          by_cases hnm : n = m
          · subst hnm
            rw [stabLoop_same_size wait obs eid fuel i sc logs n hsc hobs] at h
            exact ih (i + 1) (sc + 1) (some n) logs outLogs h
          · rw [stabLoop_changed_size wait obs eid fuel i sc logs n m hsc hobs hnm] at h
            exact ih (i + 1) 0 (some n)
              (logs ++ [{ level := .info, eventId := eid, tag := .stabilityReset m n }])
              outLogs h

/-- Every log line the stability loop appends carries the correlation
identifier it was called with. -/
lemma stabLoop_logs_eventId (wait : Nat) (obs : Nat → SizeObs) (eid : Nat) :
    ∀ fuel i sc ls logs b outLogs,
      (∀ l ∈ logs, l.eventId = eid) →
      stabLoop wait obs eid fuel i sc ls logs = some (b, outLogs) →
      ∀ l ∈ outLogs, l.eventId = eid := by
  intro fuel
  induction fuel with
  | zero =>
    intro i sc ls logs b outLogs hlogs h
    by_cases hsc : wait ≤ sc
    · rw [stabLoop_stable wait obs eid 0 i sc ls logs hsc] at h
      simp only [Option.some.injEq, Prod.mk.injEq] at h
      rw [← h.2]
      intro l hl
      rcases List.mem_append.mp hl with h1 | h1
      · exact hlogs l h1
      · rw [List.mem_singleton.mp h1]
    · rw [stabLoop_out_of_fuel wait obs eid i sc ls logs hsc] at h
      simp at h
  | succ fuel ih =>
    intro i sc ls logs b outLogs hlogs h
    by_cases hsc : wait ≤ sc
    · rw [stabLoop_stable wait obs eid (fuel + 1) i sc ls logs hsc] at h
      simp only [Option.some.injEq, Prod.mk.injEq] at h
      rw [← h.2]
      intro l hl
      rcases List.mem_append.mp hl with h1 | h1
      · exact hlogs l h1
      · rw [List.mem_singleton.mp h1]
    · cases hobs : obs i with
      | vanished =>
        rw [stabLoop_vanished wait obs eid fuel i sc ls logs hsc hobs] at h
        simp only [Option.some.injEq, Prod.mk.injEq] at h
        rw [← h.2]
        intro l hl
        rcases List.mem_append.mp hl with h1 | h1
        · exact hlogs l h1
        · rw [List.mem_singleton.mp h1]
      | ioError m =>
        rw [stabLoop_ioError wait obs eid fuel i sc ls logs m hsc hobs] at h
        simp only [Option.some.injEq, Prod.mk.injEq] at h
        rw [← h.2]
        intro l hl
        rcases List.mem_append.mp hl with h1 | h1
        · exact hlogs l h1
        · rw [List.mem_singleton.mp h1]
      | size n =>
        cases ls with
        | none =>
          rw [stabLoop_first_size wait obs eid fuel i sc logs n hsc hobs] at h
          exact ih (i + 1) sc (some n) logs b outLogs hlogs h
        | some m =>
          by_cases hnm : n = m
          · subst hnm
            rw [stabLoop_same_size wait obs eid fuel i sc logs n hsc hobs] at h
            exact ih (i + 1) (sc + 1) (some n) logs b outLogs hlogs h
          · rw [stabLoop_changed_size wait obs eid fuel i sc logs n m hsc hobs hnm] at h
            refine ih (i + 1) 0 (some n)
              (logs ++ [{ level := .info, eventId := eid, tag := .stabilityReset m n }])
              b outLogs ?_ h
            intro l hl
            rcases List.mem_append.mp hl with h1 | h1
            · exact hlogs l h1
            · rw [List.mem_singleton.mp h1]

/-! ## Claim C1 -/

/-- C1 counterexample: with wait = 3 and a file whose size is constant from
the first observation, 3 one-second samples (t = 0, 1, 2) have NOT made the
gate return stable — the loop is still running — and it returns stable only
after a 4th sample.  This refutes the claim that the gate returns stable
after exactly N = 3 samples at t = 2: the first read only sets the baseline
(`last_size is None`), so N identical comparisons need N + 1 reads. -/
theorem C1_counterexample :
    checkFileStability 3 (fun _ => SizeObs.size 100) 0 3 = none ∧
    checkFileStability 3 (fun _ => SizeObs.size 100) 0 4 =
      some (true, [{ level := .info, eventId := 0, tag := .stabilityStable }]) := by
  constructor <;> rfl

/-- C1 (amended): for every file whose size, sampled once per second, is
constant from the first observation onward, the stability check with
configured wait N returns stable after exactly N + 1 size samples (the first
sample is the baseline, the next N are the identical consecutive checks);
with wait = 3 the sizes are sampled at t = 0, 1, 2, 3 and the gate has not
returned yet after the samples at t = 0, 1, 2. -/
theorem C1_stable_after_wait_plus_one (wait : Nat) (obs : Nat → SizeObs) (eid s : Nat)
    (hconst : ∀ i, obs i = SizeObs.size s) :
    checkFileStability wait obs eid (wait + 1) =
      some (true, [{ level := .info, eventId := eid, tag := .stabilityStable }]) ∧
    (1 ≤ wait → checkFileStability wait obs eid wait = none) := by
  constructor
  · by_cases hw : wait = 0
    · subst hw
      unfold checkFileStability
      rw [stabLoop_stable 0 obs eid 1 0 0 none [] (le_refl 0)]
      simp
    · unfold checkFileStability
      rw [stabLoop_first_size wait obs eid wait 0 0 [] s (by omega) (hconst 0),
        stabLoop_const wait obs eid s hconst wait 1 0 [] (by omega),
        if_pos (by omega)]
      simp
  · intro hw
    obtain ⟨w, rfl⟩ : ∃ w, wait = w + 1 := ⟨wait - 1, by omega⟩
    unfold checkFileStability
    rw [stabLoop_first_size (w + 1) obs eid w 0 0 [] s (by omega) (hconst 0),
      stabLoop_const (w + 1) obs eid s hconst w 1 0 [] (by omega),
      if_neg (by omega)]

/-- C1 witness: the amended theorem applied at wait = 3 and the constant
size sequence 100, 100, 100, ... -/
theorem C1_witness :
    checkFileStability 3 (fun _ => SizeObs.size 100) 0 4 =
      some (true, [{ level := .info, eventId := 0, tag := .stabilityStable }]) ∧
    checkFileStability 3 (fun _ => SizeObs.size 100) 0 3 = none := by
  have h := C1_stable_after_wait_plus_one 3 (fun _ => SizeObs.size 100) 0 100
    (fun _ => rfl)
  exact ⟨h.1, h.2 (by omega)⟩

/-! ## Claim C5 -/

/-- C5: the stability check is total over its outcomes.  At any reachable
loop state (loop condition still true, any counter, baseline, and already
emitted logs): observing that the file no longer exists returns `False`
with a warning line, and an I/O error reading the size returns `False`
with an error line — both immediately, for any remaining fuel.  Moreover,
whenever `check_file_stability` returns at all it returns a definite
boolean, and a `False` return always carries the vanish warning or the I/O
error line in its logs (those are the only `False` exits). -/
theorem C5_stability_outcomes (wait : Nat) (obs : Nat → SizeObs) (eid : Nat) :
    (∀ fuel i sc ls logs, ¬ wait ≤ sc → obs i = SizeObs.vanished →
      stabLoop wait obs eid (fuel + 1) i sc ls logs =
        some (false, logs ++
          [{ level := .warning, eventId := eid, tag := .stabilityVanished }])) ∧
    (∀ fuel i sc ls logs m, ¬ wait ≤ sc → obs i = SizeObs.ioError m →
      stabLoop wait obs eid (fuel + 1) i sc ls logs =
        some (false, logs ++
          [{ level := .error, eventId := eid, tag := .stabilityIOError m }])) ∧
    (∀ fuel outLogs, checkFileStability wait obs eid fuel = some (false, outLogs) →
      ∃ l ∈ outLogs, (l.level = .warning ∧ l.tag = .stabilityVanished) ∨
        (l.level = .error ∧ ∃ m, l.tag = .stabilityIOError m)) := by
  refine ⟨?_, ?_, ?_⟩
  · intro fuel i sc ls logs hsc hobs
    exact stabLoop_vanished wait obs eid fuel i sc ls logs hsc hobs
  · intro fuel i sc ls logs m hsc hobs
    exact stabLoop_ioError wait obs eid fuel i sc ls logs m hsc hobs
  · intro fuel outLogs h
    exact stabLoop_false_has_abort wait obs eid fuel 0 0 none [] outLogs h

/-- C5 witness: the outcome theorem applied to concrete observation
sequences with wait = 3 — a vanish at the very first checkpoint, an I/O
error at the first checkpoint, and a full run that aborts on a vanish after
two stable samples. -/
theorem C5_witness :
    stabLoop 3 (fun _ => SizeObs.vanished) 9 5 0 0 none [] =
      some (false, [{ level := .warning, eventId := 9, tag := .stabilityVanished }]) ∧
    stabLoop 3 (fun _ => SizeObs.ioError "eio") 9 5 0 0 none [] =
      some (false, [{ level := .error, eventId := 9, tag := .stabilityIOError "eio" }]) ∧
    ∃ l ∈ ([{ level := .warning, eventId := 9, tag := .stabilityVanished }] : List LogLine),
      (l.level = .warning ∧ l.tag = .stabilityVanished) ∨
        (l.level = .error ∧ ∃ m, l.tag = .stabilityIOError m) := by
  have h1 := (C5_stability_outcomes 3 (fun _ => SizeObs.vanished) 9).1
    4 0 0 none [] (by omega) rfl
  have h2 := (C5_stability_outcomes 3 (fun _ => SizeObs.ioError "eio") 9).2.1
    4 0 0 none [] "eio" (by omega) rfl
  have h3 := (C5_stability_outcomes 3
      (fun i => if i < 2 then SizeObs.size 5 else SizeObs.vanished) 9).2.2 10
    [{ level := .warning, eventId := 9, tag := .stabilityVanished }] (by decide)
  exact ⟨by simpa using h1, by simpa using h2, h3⟩

/-! ## Structural lemmas for the event handler -/

/-- Lookup distributes over cons. -/
lemma lookupTime_cons (e : String × ℚ) (l : List (String × ℚ)) (p : String) :
    lookupTime (e :: l) p = if e.1 = p then e.2 else lookupTime l p := by
  by_cases he : e.1 = p
  · simp [lookupTime, List.find?, he]
  · simp [lookupTime, List.find?, he]

/-- After writing time `t` for path `p`, looking `p` up yields `t`. -/
lemma lookupTime_insertTime (m : List (String × ℚ)) (p : String) (t : ℚ) :
    lookupTime (insertTime m p t) p = t := by
  induction m with
  | nil => simp [insertTime, lookupTime_cons]
  | cons e rest ih =>
    simp only [insertTime]
    by_cases he : e.1 = p
    · rw [if_pos he, lookupTime_cons]
      simp
    · rw [if_neg he, lookupTime_cons, if_neg he]
      exact ih

/-- Directory events are dropped before any other check
(src/main.py line 48). -/
lemma onAnyEvent_reject_dir (cfg : HandlerConfig) (st : HandlerState) (ev : RawEvent)
    (now : ℚ) (h : ev.is_directory = true) :
    onAnyEvent cfg st ev now = (st, none, []) := by
  unfold onAnyEvent
  rw [h]
  simp

/-- Events whose path misses the glob are dropped before any other check
(src/main.py line 48). -/
lemma onAnyEvent_reject_glob (cfg : HandlerConfig) (st : HandlerState) (ev : RawEvent)
    (now : ℚ) (h : fnmatchMatch ev.src_path cfg.file_extension_pattern = false) :
    onAnyEvent cfg st ev now = (st, none, []) := by
  unfold onAnyEvent
  rw [h]
  simp

/-- An event inside the debounce window is dropped (src/main.py line 53). -/
lemma onAnyEvent_reject_debounce (cfg : HandlerConfig) (st : HandlerState) (ev : RawEvent)
    (now : ℚ) (hdir : ev.is_directory = false)
    (hglob : fnmatchMatch ev.src_path cfg.file_extension_pattern = true)
    (hdeb : now - lookupTime st.last_event_time ev.src_path < cfg.debounce_seconds) :
    onAnyEvent cfg st ev now = (st, none, []) := by
  unfold onAnyEvent
  rw [hdir, hglob]
  simp [hdeb]

/-- An event whose type is not configured is dropped with no state change
(src/main.py line 56: the update and dispatch sit inside the `if`). -/
lemma onAnyEvent_reject_kind (cfg : HandlerConfig) (st : HandlerState) (ev : RawEvent)
    (now : ℚ) (hdir : ev.is_directory = false)
    (hglob : fnmatchMatch ev.src_path cfg.file_extension_pattern = true)
    (hkind : cfg.event_types.contains ev.event_type = false) :
    onAnyEvent cfg st ev now = (st, none, []) := by
  have hk2 : ev.event_type ∉ cfg.event_types := by simpa using hkind
  unfold onAnyEvent
  rw [hdir, hglob]
  simp [hk2]

/-- An event passing all four checks updates the debounce map, consumes a
fresh identifier, logs the detection and spawns a dispatch
(src/main.py lines 56-61). -/
lemma onAnyEvent_accept (cfg : HandlerConfig) (st : HandlerState) (ev : RawEvent)
    (now : ℚ) (hdir : ev.is_directory = false)
    (hglob : fnmatchMatch ev.src_path cfg.file_extension_pattern = true)
    (hdeb : ¬ now - lookupTime st.last_event_time ev.src_path < cfg.debounce_seconds)
    (hkind : cfg.event_types.contains ev.event_type = true) :
    onAnyEvent cfg st ev now =
      ({ last_event_time := insertTime st.last_event_time ev.src_path now,
         nextId := st.nextId + 1 },
       some { event := ev, event_id := st.nextId, time := now },
       [{ level := .info, eventId := st.nextId, tag := .detected }]) := by
  have hk2 : ev.event_type ∈ cfg.event_types := by simpa using hkind
  unfold onAnyEvent
  rw [hdir, hglob]
  simp [hdeb, hk2]

/-- Every call to `on_any_event` either rejects, returning everything
unchanged with no output, or the four acceptance conditions hold and it
produces exactly the acceptance result. -/
lemma onAnyEvent_cases (cfg : HandlerConfig) (st : HandlerState) (ev : RawEvent)
    (now : ℚ) :
    onAnyEvent cfg st ev now = (st, none, []) ∨
    (ev.is_directory = false ∧
     fnmatchMatch ev.src_path cfg.file_extension_pattern = true ∧
     ¬ now - lookupTime st.last_event_time ev.src_path < cfg.debounce_seconds ∧
     cfg.event_types.contains ev.event_type = true ∧
     onAnyEvent cfg st ev now =
       ({ last_event_time := insertTime st.last_event_time ev.src_path now,
          nextId := st.nextId + 1 },
        some { event := ev, event_id := st.nextId, time := now },
        [{ level := .info, eventId := st.nextId, tag := .detected }])) := by
  by_cases hdir : ev.is_directory = true
  · exact Or.inl (onAnyEvent_reject_dir cfg st ev now hdir)
  · have hdir2 : ev.is_directory = false := by
      cases h : ev.is_directory
      · rfl
      · exact absurd h hdir
    by_cases hglob : fnmatchMatch ev.src_path cfg.file_extension_pattern = true
    · by_cases hdeb : now - lookupTime st.last_event_time ev.src_path < cfg.debounce_seconds
      · exact Or.inl (onAnyEvent_reject_debounce cfg st ev now hdir2 hglob hdeb)
      · by_cases hkind : cfg.event_types.contains ev.event_type = true
        · exact Or.inr ⟨hdir2, hglob, hdeb, hkind,
            onAnyEvent_accept cfg st ev now hdir2 hglob hdeb hkind⟩
        · refine Or.inl (onAnyEvent_reject_kind cfg st ev now hdir2 hglob ?_)
          cases h : cfg.event_types.contains ev.event_type
          · rfl
          · exact absurd h hkind
    · refine Or.inl (onAnyEvent_reject_glob cfg st ev now ?_)
      cases h : fnmatchMatch ev.src_path cfg.file_extension_pattern
      · rfl
      · exact absurd h hglob

/-! ## Claim C3 -/

/-- C3 counterexample: with the debounce window at its value 1.0, a second
event for `/data/a.csv` arriving exactly one window after the recorded last
acceptance (now - last = 1.0 = window) is ACCEPTED — a dispatch is produced —
refuting the claim that equality at the boundary is rejected.  The code
rejects only `now - last < window` (src/main.py line 53), so equality falls
through to acceptance. -/
theorem C3_counterexample :
    (onAnyEvent (mkHandler ["modified"] "http://x" "Bearer t" "*.csv" false 5)
        { last_event_time := [("/data/a.csv", 0)], nextId := 0 }
        { src_path := "/data/a.csv", event_type := "modified", is_directory := false }
        1).2.1 =
      some { event := { src_path := "/data/a.csv", event_type := "modified",
                        is_directory := false },
             event_id := 0, time := 1 } ∧
    (1 : ℚ) - lookupTime [("/data/a.csv", 0)] "/data/a.csv" =
      (mkHandler ["modified"] "http://x" "Bearer t" "*.csv" false 5).debounce_seconds := by
  have hl : lookupTime [("/data/a.csv", 0)] "/data/a.csv" = 0 := by
    rw [lookupTime_cons]
    simp
  have hdeb : ¬ (1 : ℚ) - lookupTime [("/data/a.csv", 0)] "/data/a.csv" <
      (mkHandler ["modified"] "http://x" "Bearer t" "*.csv" false 5).debounce_seconds := by
    rw [hl]
    norm_num [mkHandler]
  constructor
  · rw [onAnyEvent_accept (mkHandler ["modified"] "http://x" "Bearer t" "*.csv" false 5)
      { last_event_time := [("/data/a.csv", 0)], nextId := 0 }
      { src_path := "/data/a.csv", event_type := "modified", is_directory := false }
      1 rfl (by decide) hdeb (by decide)]
  · rw [hl]
    norm_num [mkHandler]

/-- C3 (amended): when a second event arrives exactly at the debounce
boundary (now - lastAcceptedTime[path] = debounceWindow), the debouncer
ACCEPTS it: the rejection test is strict-less-than, so equality counts as
outside the window, and rejection requires strictly less than the window to
have elapsed. -/
theorem C3_boundary_accepted (cfg : HandlerConfig) (st : HandlerState) (ev : RawEvent)
    (now : ℚ) (hdir : ev.is_directory = false)
    (hglob : fnmatchMatch ev.src_path cfg.file_extension_pattern = true)
    (hkind : cfg.event_types.contains ev.event_type = true)
    (hbound : now - lookupTime st.last_event_time ev.src_path = cfg.debounce_seconds) :
    (onAnyEvent cfg st ev now).2.1 =
      some { event := ev, event_id := st.nextId, time := now } := by
  have hdeb : ¬ now - lookupTime st.last_event_time ev.src_path < cfg.debounce_seconds := by
    rw [hbound]
    exact lt_irrefl _
  rw [onAnyEvent_accept cfg st ev now hdir hglob hdeb hkind]

/-- C3 witness: the amended theorem at the concrete boundary input of the
counterexample. -/
theorem C3_witness :
    (onAnyEvent (mkHandler ["modified"] "http://x" "Bearer t" "*.csv" false 5)
        { last_event_time := [("/data/a.csv", 0)], nextId := 0 }
        { src_path := "/data/a.csv", event_type := "modified", is_directory := false }
        1).2.1 ≠ none := by
  have hl : lookupTime [("/data/a.csv", 0)] "/data/a.csv" = 0 := by
    rw [lookupTime_cons]
    simp
  rw [C3_boundary_accepted (mkHandler ["modified"] "http://x" "Bearer t" "*.csv" false 5)
    { last_event_time := [("/data/a.csv", 0)], nextId := 0 }
    { src_path := "/data/a.csv", event_type := "modified", is_directory := false }
    1 rfl (by decide) (by decide) (by rw [hl]; norm_num [mkHandler])]
  decide

/-! ## Claim C4 -/

/-- C4: for events on the same path with last accepted time t1, a second
filter-passing event at time t2 is rejected when t2 - t1 < debounceWindow
and accepted when t2 - t1 ≥ debounceWindow; and the constructor hard-codes
the window to 1.0 (src/main.py line 42). -/
theorem C4_debounce_window (cfg : HandlerConfig) (st : HandlerState) (ev : RawEvent)
    (t1 t2 : ℚ) (hdir : ev.is_directory = false)
    (hglob : fnmatchMatch ev.src_path cfg.file_extension_pattern = true)
    (hkind : cfg.event_types.contains ev.event_type = true)
    (hlast : lookupTime st.last_event_time ev.src_path = t1) :
    ((t2 - t1 < cfg.debounce_seconds → (onAnyEvent cfg st ev t2).2.1 = none) ∧
     (cfg.debounce_seconds ≤ t2 - t1 →
        (onAnyEvent cfg st ev t2).2.1 =
          some { event := ev, event_id := st.nextId, time := t2 })) ∧
    (mkHandler cfg.event_types cfg.post_url cfg.authentication_header
        cfg.file_extension_pattern cfg.file_stability_check_enabled
        cfg.file_stability_wait_seconds).debounce_seconds = 1 := by
  refine ⟨⟨?_, ?_⟩, rfl⟩
  · intro hlt
    rw [onAnyEvent_reject_debounce cfg st ev t2 hdir hglob (by rw [hlast]; exact hlt)]
  · intro hge
    rw [onAnyEvent_accept cfg st ev t2 hdir hglob (by rw [hlast]; exact not_lt.mpr hge) hkind]

/-- C4 witness: the window theorem at concrete inputs — a second event for
`/data/a.csv` at t2 = 1/2 (rejected, within the window) and the acceptance
side at t2 = 3/2 (outside the window). -/
theorem C4_witness :
    (onAnyEvent (mkHandler ["modified"] "http://x" "Bearer t" "*.csv" false 5)
        { last_event_time := [("/data/a.csv", 0)], nextId := 0 }
        { src_path := "/data/a.csv", event_type := "modified", is_directory := false }
        (1 / 2)).2.1 = none ∧
    (onAnyEvent (mkHandler ["modified"] "http://x" "Bearer t" "*.csv" false 5)
        { last_event_time := [("/data/a.csv", 0)], nextId := 0 }
        { src_path := "/data/a.csv", event_type := "modified", is_directory := false }
        (3 / 2)).2.1 =
      some { event := { src_path := "/data/a.csv", event_type := "modified",
                        is_directory := false },
             event_id := 0, time := 3 / 2 } := by
  have hl : lookupTime [("/data/a.csv", 0)] "/data/a.csv" = 0 := by
    rw [lookupTime_cons]
    simp
  constructor
  · exact (C4_debounce_window (mkHandler ["modified"] "http://x" "Bearer t" "*.csv" false 5)
      { last_event_time := [("/data/a.csv", 0)], nextId := 0 }
      { src_path := "/data/a.csv", event_type := "modified", is_directory := false }
      0 (1 / 2) rfl (by decide) (by decide) hl).1.1 (by norm_num [mkHandler])
  · exact (C4_debounce_window (mkHandler ["modified"] "http://x" "Bearer t" "*.csv" false 5)
      { last_event_time := [("/data/a.csv", 0)], nextId := 0 }
      { src_path := "/data/a.csv", event_type := "modified", is_directory := false }
      0 (3 / 2) rfl (by decide) (by decide) hl).1.2 (by norm_num [mkHandler])

/-! ## Claim C6 -/

/-- C6: a raw event that is a directory event, or whose path misses the
configured glob (matched against the full path string), or whose kind is
not in the configured accepted kinds, is rejected outright: the handler
state (including the fresh-identifier counter, so no correlation identifier
is generated) is unchanged, no dispatch is started, and nothing is
logged. -/
theorem C6_filter_rejects (cfg : HandlerConfig) (st : HandlerState) (ev : RawEvent)
    (now : ℚ)
    (h : ev.is_directory = true ∨
      fnmatchMatch ev.src_path cfg.file_extension_pattern = false ∨
      cfg.event_types.contains ev.event_type = false) :
    onAnyEvent cfg st ev now = (st, none, []) := by
  rcases h with h | h | h
  · exact onAnyEvent_reject_dir cfg st ev now h
  · exact onAnyEvent_reject_glob cfg st ev now h
  · rcases onAnyEvent_cases cfg st ev now with hc | ⟨_, _, _, hkind, _⟩
    · exact hc
    · rw [hkind] at h
      exact absurd h (by simp)

/-- C6 witness: the rejection theorem at three concrete raw events — a
directory event, a `.txt` path against the `*.csv` glob, and a `deleted`
event with only `modified` configured. -/
theorem C6_witness :
    onAnyEvent (mkHandler ["modified"] "http://x" "Bearer t" "*.csv" false 5)
      { last_event_time := [], nextId := 0 }
      { src_path := "/data/a.csv", event_type := "modified", is_directory := true } 5 =
      ({ last_event_time := [], nextId := 0 }, none, []) ∧
    onAnyEvent (mkHandler ["modified"] "http://x" "Bearer t" "*.csv" false 5)
      { last_event_time := [], nextId := 0 }
      { src_path := "/data/a.txt", event_type := "modified", is_directory := false } 5 =
      ({ last_event_time := [], nextId := 0 }, none, []) ∧
    onAnyEvent (mkHandler ["modified"] "http://x" "Bearer t" "*.csv" false 5)
      { last_event_time := [], nextId := 0 }
      { src_path := "/data/a.csv", event_type := "deleted", is_directory := false } 5 =
      ({ last_event_time := [], nextId := 0 }, none, []) := by
  refine ⟨?_, ?_, ?_⟩
  · exact C6_filter_rejects _ _ _ _ (Or.inl rfl)
  · exact C6_filter_rejects _ _ _ _ (Or.inr (Or.inl (by decide)))
  · exact C6_filter_rejects _ _ _ _ (Or.inr (Or.inr (by decide)))

/-! ## Claim C9 -/

/-- C9: the debounce map is written exactly on acceptance.  A rejected
notification leaves the whole handler state (the entire mapping and the
identifier counter) unchanged; an accepted one replaces the entry for the
event's path with the acceptance time, so looking the path up afterwards
yields that time. -/
theorem C9_state_written_iff_accepted (cfg : HandlerConfig) (st : HandlerState)
    (ev : RawEvent) (now : ℚ) :
    ((onAnyEvent cfg st ev now).2.1 = none → (onAnyEvent cfg st ev now).1 = st) ∧
    (∀ d, (onAnyEvent cfg st ev now).2.1 = some d →
      (onAnyEvent cfg st ev now).1.last_event_time =
        insertTime st.last_event_time ev.src_path now ∧
      lookupTime (onAnyEvent cfg st ev now).1.last_event_time ev.src_path = now) := by
  rcases onAnyEvent_cases cfg st ev now with hc | ⟨_, _, _, _, hc⟩
  · rw [hc]
    constructor
    · intro _
      rfl
    · intro d hd
      simp at hd
  · rw [hc]
    constructor
    · intro hn
      simp at hn
    · intro d _
      exact ⟨rfl, lookupTime_insertTime st.last_event_time ev.src_path now⟩

/-- C9 witness: the written-iff-accepted theorem at a concrete rejected
notification (directory event: state unchanged) and a concrete accepted one
(the debounce entry for the path becomes the acceptance time 1). -/
theorem C9_witness :
    (onAnyEvent (mkHandler ["modified"] "http://x" "Bearer t" "*.csv" false 5)
      { last_event_time := [("/data/a.csv", 0)], nextId := 0 }
      { src_path := "/data/a.csv", event_type := "modified", is_directory := true }
      5).1 = { last_event_time := [("/data/a.csv", 0)], nextId := 0 } ∧
    lookupTime (onAnyEvent (mkHandler ["modified"] "http://x" "Bearer t" "*.csv" false 5)
      { last_event_time := [("/data/a.csv", 0)], nextId := 0 }
      { src_path := "/data/a.csv", event_type := "modified", is_directory := false }
      (3 / 2)).1.last_event_time "/data/a.csv" = 3 / 2 := by
  have hl : lookupTime [("/data/a.csv", 0)] "/data/a.csv" = 0 := by
    rw [lookupTime_cons]
    simp
  have hacc := onAnyEvent_accept (mkHandler ["modified"] "http://x" "Bearer t" "*.csv" false 5)
    { last_event_time := [("/data/a.csv", 0)], nextId := 0 }
    { src_path := "/data/a.csv", event_type := "modified", is_directory := false }
    (3 / 2) rfl (by decide) (by rw [hl]; norm_num [mkHandler]) (by decide)
  constructor
  · exact (C9_state_written_iff_accepted
      (mkHandler ["modified"] "http://x" "Bearer t" "*.csv" false 5)
      { last_event_time := [("/data/a.csv", 0)], nextId := 0 }
      { src_path := "/data/a.csv", event_type := "modified", is_directory := true }
      5).1 rfl
  · exact ((C9_state_written_iff_accepted
      (mkHandler ["modified"] "http://x" "Bearer t" "*.csv" false 5)
      { last_event_time := [("/data/a.csv", 0)], nextId := 0 }
      { src_path := "/data/a.csv", event_type := "modified", is_directory := false }
      (3 / 2)).2
      { event := { src_path := "/data/a.csv", event_type := "modified",
                   is_directory := false },
        event_id := 0, time := 3 / 2 }
      (by rw [hacc])).2

/-! ## Branch characterizations of the dispatcher -/

/-- The stability-start log prefix: present exactly when the check is
enabled (src/main.py line 101). -/
def stabilityStartLogs (cfg : HandlerConfig) (eid : Nat) : List LogLine :=
  if cfg.file_stability_check_enabled then
    [{ level := .info, eventId := eid, tag := .stabilityStart }]
  else []

/-- The request `post_event` sends, reassembled from the spec's description
of the outbound interface: POST to the configured URL, the three headers
with the authentication header resolved against the environment, and the
JSON payload of directory, file name and correlation identifier
(spec section 6, Outbound HTTP request). -/
def builtRequest (cfg : HandlerConfig) (denv : DispatchEnv) (ev : RawEvent)
    (eid : Nat) : HttpRequest :=
  { method := "POST"
    url := cfg.post_url
    headers := [("Authorization", expandVars denv.env cfg.authentication_header),
                ("Content-Type", "application/json"),
                ("Accept", "application/json")]
    body := jsonDumpsPayload
      { filepath := (splitPath (absPath denv.cwd ev.src_path)).1,
        filename := (splitPath (absPath denv.cwd ev.src_path)).2,
        event_id := toString eid } }

/-- With the stability check enabled and failing, `post_event` returns
before building any request (src/main.py lines 100-104). -/
lemma postEvent_drop (cfg : HandlerConfig) (denv : DispatchEnv) (ev : RawEvent)
    (eid : Nat) (he : cfg.file_stability_check_enabled = true)
    (hs : denv.stabilityResult = false) :
    postEvent cfg denv ev eid =
      (.dropped, [],
       [{ level := .info, eventId := eid, tag := .stabilityStart },
        { level := .warning, eventId := eid, tag := .stabilityFailed }]) := by
  simp [postEvent, postEventTry, he, hs]

/-- An exception injected at payload construction is caught by the handler
of line 128 after no request was issued. -/
lemma postEvent_payload_exn (cfg : HandlerConfig) (denv : DispatchEnv) (ev : RawEvent)
    (eid : Nat) (m : String)
    (hsb : (cfg.file_stability_check_enabled && !denv.stabilityResult) = false)
    (hp : denv.payloadExn = some m) :
    postEvent cfg denv ev eid =
      (.exceptionCaught m, [],
       stabilityStartLogs cfg eid ++
         [{ level := .error, eventId := eid, tag := .postException m }]) := by
  simp [postEvent, postEventTry, hsb, hp, stabilityStartLogs]

/-- An exception injected at header resolution is caught after no request
was issued. -/
lemma postEvent_header_exn (cfg : HandlerConfig) (denv : DispatchEnv) (ev : RawEvent)
    (eid : Nat) (m : String)
    (hsb : (cfg.file_stability_check_enabled && !denv.stabilityResult) = false)
    (hp : denv.payloadExn = none) (hh : denv.headerExn = some m) :
    postEvent cfg denv ev eid =
      (.exceptionCaught m, [],
       stabilityStartLogs cfg eid ++
         [{ level := .error, eventId := eid, tag := .postException m }]) := by
  simp [postEvent, postEventTry, hsb, hp, hh, stabilityStartLogs]

/-- A network exception is caught after the request was issued. -/
lemma postEvent_net_exn (cfg : HandlerConfig) (denv : DispatchEnv) (ev : RawEvent)
    (eid : Nat) (m : String)
    (hsb : (cfg.file_stability_check_enabled && !denv.stabilityResult) = false)
    (hp : denv.payloadExn = none) (hh : denv.headerExn = none)
    (hres : denv.postResult = Except.error m) :
    postEvent cfg denv ev eid =
      (.exceptionCaught m, [builtRequest cfg denv ev eid],
       stabilityStartLogs cfg eid ++
         [{ level := .info, eventId := eid, tag := .sending },
          { level := .error, eventId := eid, tag := .postException m }]) := by
  simp [postEvent, postEventTry, hsb, hp, hh, hres, stabilityStartLogs, builtRequest]

/-- A delivered response yields success exactly on status 200, and a logged
error with status and body otherwise (src/main.py lines 124-127). -/
lemma postEvent_response (cfg : HandlerConfig) (denv : DispatchEnv) (ev : RawEvent)
    (eid : Nat) (resp : HttpResponse)
    (hsb : (cfg.file_stability_check_enabled && !denv.stabilityResult) = false)
    (hp : denv.payloadExn = none) (hh : denv.headerExn = none)
    (hres : denv.postResult = Except.ok resp) :
    postEvent cfg denv ev eid =
      (if resp.status_code = 200 then
        (.success, [builtRequest cfg denv ev eid],
         stabilityStartLogs cfg eid ++
           [{ level := .info, eventId := eid, tag := .sending },
            { level := .info, eventId := eid, tag := .postSuccess }])
      else
        (.httpError resp.status_code resp.text, [builtRequest cfg denv ev eid],
         stabilityStartLogs cfg eid ++
           [{ level := .info, eventId := eid, tag := .sending },
            { level := .error, eventId := eid,
              tag := .postHTTPError resp.status_code resp.text }])) := by
  by_cases h200 : resp.status_code = 200
  · simp [postEvent, postEventTry, hsb, hp, hh, hres, h200, stabilityStartLogs, builtRequest]
  · simp [postEvent, postEventTry, hsb, hp, hh, hres, h200, stabilityStartLogs, builtRequest]

/-! ## Claim C2 -/

/-- C2: delivery-outcome handling of `post_event`.  Any exception escaping
the try body is caught: the function returns normally with the exception
converted to an error log line carrying the correlation identifier (so
nothing propagates out of `post_event`).  When a response arrives, status
200 is the one and only success; any other status produces the httpError
outcome with an error log line containing the status code and response
body.  An exception injected at payload construction, header resolution or
the network call always ends in the caught-exception outcome with the
error logged. -/
theorem C2_delivery_outcomes (cfg : HandlerConfig) (denv : DispatchEnv)
    (ev : RawEvent) (eid : Nat) :
    (∀ m reqs logs, postEventTry cfg denv ev eid = Except.error (m, reqs, logs) →
       postEvent cfg denv ev eid =
         (.exceptionCaught m, reqs,
          logs ++ [{ level := .error, eventId := eid, tag := .postException m }])) ∧
    ((cfg.file_stability_check_enabled = false ∨ denv.stabilityResult = true) →
      denv.payloadExn = none → denv.headerExn = none →
      ∀ resp, denv.postResult = Except.ok resp →
        ((resp.status_code = 200 ↔ (postEvent cfg denv ev eid).1 = .success) ∧
         (resp.status_code ≠ 200 →
           (postEvent cfg denv ev eid).1 = .httpError resp.status_code resp.text ∧
           { level := .error, eventId := eid,
             tag := .postHTTPError resp.status_code resp.text } ∈
             (postEvent cfg denv ev eid).2.2))) ∧
    ((cfg.file_stability_check_enabled = false ∨ denv.stabilityResult = true) →
      ∀ m,
        (denv.payloadExn = some m ∨
         (denv.payloadExn = none ∧ denv.headerExn = some m) ∨
         (denv.payloadExn = none ∧ denv.headerExn = none ∧
          denv.postResult = Except.error m)) →
        (postEvent cfg denv ev eid).1 = .exceptionCaught m ∧
        { level := .error, eventId := eid, tag := .postException m } ∈
          (postEvent cfg denv ev eid).2.2) := by
  refine ⟨?_, ?_, ?_⟩
  · intro m reqs logs h
    simp [postEvent, h]
  · intro hstab hp hh resp hres
    have hsb : (cfg.file_stability_check_enabled && !denv.stabilityResult) = false := by
      rcases hstab with h | h <;> simp [h]
    rw [postEvent_response cfg denv ev eid resp hsb hp hh hres]
    by_cases h200 : resp.status_code = 200
    · simp [h200]
    · simp [h200]
  · intro hstab m hcase
    have hsb : (cfg.file_stability_check_enabled && !denv.stabilityResult) = false := by
      rcases hstab with h | h <;> simp [h]
    rcases hcase with hp | ⟨hp, hh⟩ | ⟨hp, hh, hres⟩
    · rw [postEvent_payload_exn cfg denv ev eid m hsb hp]
      simp
    · rw [postEvent_header_exn cfg denv ev eid m hsb hp hh]
      simp
    · rw [postEvent_net_exn cfg denv ev eid m hsb hp hh hres]
      simp

/-- C2 witness: the outcome theorem at concrete dispatch environments — an
HTTP 500 response (error outcome and log, no exception) and a raised
network exception (caught and logged). -/
theorem C2_witness :
    (postEvent (mkHandler ["modified"] "http://x" "Bearer t" "*.csv" false 5)
      { cwd := "/", env := fun _ => none, stabilityResult := true,
        payloadExn := none, headerExn := none,
        postResult := Except.ok { status_code := 500, text := "boom" } }
      { src_path := "/data/b.csv", event_type := "modified", is_directory := false }
      7).1 = .httpError 500 "boom" ∧
    { level := .error, eventId := 7, tag := .postHTTPError 500 "boom" } ∈
      (postEvent (mkHandler ["modified"] "http://x" "Bearer t" "*.csv" false 5)
        { cwd := "/", env := fun _ => none, stabilityResult := true,
          payloadExn := none, headerExn := none,
          postResult := Except.ok { status_code := 500, text := "boom" } }
        { src_path := "/data/b.csv", event_type := "modified", is_directory := false }
        7).2.2 ∧
    (postEvent (mkHandler ["modified"] "http://x" "Bearer t" "*.csv" false 5)
      { cwd := "/", env := fun _ => none, stabilityResult := true,
        payloadExn := none, headerExn := none,
        postResult := Except.error "ConnectionError" }
      { src_path := "/data/b.csv", event_type := "modified", is_directory := false }
      8).1 = .exceptionCaught "ConnectionError" := by
  have h1 := ((C2_delivery_outcomes
    (mkHandler ["modified"] "http://x" "Bearer t" "*.csv" false 5)
    { cwd := "/", env := fun _ => none, stabilityResult := true,
      payloadExn := none, headerExn := none,
      postResult := Except.ok { status_code := 500, text := "boom" } }
    { src_path := "/data/b.csv", event_type := "modified", is_directory := false }
    7).2.1 (Or.inl rfl) rfl rfl { status_code := 500, text := "boom" } rfl).2 (by decide)
  have h2 := ((C2_delivery_outcomes
    (mkHandler ["modified"] "http://x" "Bearer t" "*.csv" false 5)
    { cwd := "/", env := fun _ => none, stabilityResult := true,
      payloadExn := none, headerExn := none,
      postResult := Except.error "ConnectionError" }
    { src_path := "/data/b.csv", event_type := "modified", is_directory := false }
    8).2.2 (Or.inl rfl) "ConnectionError" (Or.inr (Or.inr ⟨rfl, rfl, rfl⟩))).1
  exact ⟨h1.1, h1.2, h2⟩

/-! ## Claim C7 -/

/-- C7: whenever `post_event` reaches the network call (stability gate
passed or disabled, no exception before the call), the one request it
issues is a POST to the configured destination URL, with the Authorization
header resolved from the configured template against the process
environment at send time, the two JSON content headers, and as body exactly
the JSON object of the file's directory path, base name, and correlation
identifier — independently of whether the call itself then succeeds,
fails, or raises. -/
theorem C7_request_shape (cfg : HandlerConfig) (denv : DispatchEnv) (ev : RawEvent)
    (eid : Nat)
    (hstab : cfg.file_stability_check_enabled = false ∨ denv.stabilityResult = true)
    (hp : denv.payloadExn = none) (hh : denv.headerExn = none) :
    (postEvent cfg denv ev eid).2.1 = [builtRequest cfg denv ev eid] ∧
    (builtRequest cfg denv ev eid).method = "POST" ∧
    (builtRequest cfg denv ev eid).url = cfg.post_url ∧
    (builtRequest cfg denv ev eid).headers =
      [("Authorization", expandVars denv.env cfg.authentication_header),
       ("Content-Type", "application/json"),
       ("Accept", "application/json")] ∧
    (builtRequest cfg denv ev eid).body =
      jsonDumpsPayload
        { filepath := (splitPath (absPath denv.cwd ev.src_path)).1,
          filename := (splitPath (absPath denv.cwd ev.src_path)).2,
          event_id := toString eid } := by
  have hsb : (cfg.file_stability_check_enabled && !denv.stabilityResult) = false := by
    rcases hstab with h | h <;> simp [h]
  refine ⟨?_, rfl, rfl, rfl, rfl⟩
  cases hres : denv.postResult with
  | error m =>
    rw [postEvent_net_exn cfg denv ev eid m hsb hp hh hres]
  | ok resp =>
    rw [postEvent_response cfg denv ev eid resp hsb hp hh hres]
    by_cases h200 : resp.status_code = 200
    · simp [h200]
    · simp [h200]

/-- C7 witness: the request-shape theorem at a concrete configuration with
authentication template referencing the TOKEN environment variable set to
abc123: the outbound request carries `Authorization: Bearer abc123` and the
exact three-field JSON body. -/
theorem C7_witness :
    (postEvent (mkHandler ["modified"] "http://x" "Bearer $\x7bTOKEN\x7d" "*.csv" false 5)
      { cwd := "/", env := fun n => if n = "TOKEN" then some "abc123" else none,
        stabilityResult := true, payloadExn := none, headerExn := none,
        postResult := Except.ok { status_code := 200, text := "ok" } }
      { src_path := "/data/b.csv", event_type := "modified", is_directory := false }
      7).2.1 =
      [{ method := "POST", url := "http://x",
         headers := [("Authorization", "Bearer abc123"),
                     ("Content-Type", "application/json"),
                     ("Accept", "application/json")],
         body := "\x7b\"filepath\": \"/data\", \"filename\": \"b.csv\", \"event_id\": \"7\"\x7d" }] := by
  rw [(C7_request_shape (mkHandler ["modified"] "http://x" "Bearer $\x7bTOKEN\x7d" "*.csv" false 5)
    { cwd := "/", env := fun n => if n = "TOKEN" then some "abc123" else none,
      stabilityResult := true, payloadExn := none, headerExn := none,
      postResult := Except.ok { status_code := 200, text := "ok" } }
    { src_path := "/data/b.csv", event_type := "modified", is_directory := false }
    7 (Or.inl rfl) rfl rfl).1]
  decide

/-! ## Claim C10 -/

/-- C10: an accepted event whose stability check fails is dropped without
any HTTP request being issued, while the debounce timestamp written at
acceptance stays in place (the dispatch thread never touches the debounce
map), so a later event for the same path inside the debounce window is
still rejected and the handler state is unchanged by it. -/
theorem C10_dropped_event_still_suppresses (cfg : HandlerConfig) (st : HandlerState)
    (ev e2 : RawEvent) (denv : DispatchEnv) (t t2 : ℚ) (d : Dispatched)
    (hacc : (onAnyEvent cfg st ev t).2.1 = some d)
    (he : cfg.file_stability_check_enabled = true)
    (hs : denv.stabilityResult = false)
    (hpath : e2.src_path = ev.src_path)
    (hwin : t2 - t < cfg.debounce_seconds) :
    (postEvent cfg denv ev d.event_id).1 = .dropped ∧
    (postEvent cfg denv ev d.event_id).2.1 = [] ∧
    (onAnyEvent cfg (onAnyEvent cfg st ev t).1 e2 t2).2.1 = none ∧
    (onAnyEvent cfg (onAnyEvent cfg st ev t).1 e2 t2).1 = (onAnyEvent cfg st ev t).1 := by
  have hdrop := postEvent_drop cfg denv ev d.event_id he hs
  refine ⟨by rw [hdrop], by rw [hdrop], ?_⟩
  rcases onAnyEvent_cases cfg st ev t with hc | ⟨_, _, _, _, hc⟩
  · rw [hc] at hacc
    simp at hacc
  · have hA : (onAnyEvent cfg st ev t).1 =
        { last_event_time := insertTime st.last_event_time ev.src_path t,
          nextId := st.nextId + 1 } := by
      rw [hc]
    rw [hA]
    have hlook : lookupTime (insertTime st.last_event_time ev.src_path t) e2.src_path
        = t := by
      rw [hpath]
      exact lookupTime_insertTime st.last_event_time ev.src_path t
    have hrej := onAnyEvent_reject_debounce cfg
      { last_event_time := insertTime st.last_event_time ev.src_path t,
        nextId := st.nextId + 1 } e2 t2
    rcases onAnyEvent_cases cfg
      { last_event_time := insertTime st.last_event_time ev.src_path t,
        nextId := st.nextId + 1 } e2 t2 with hc2 | ⟨_, _, hdeb2, _, _⟩
    · rw [hc2]
      exact ⟨rfl, rfl⟩
    · exact absurd (by rw [hlook]; exact hwin) hdeb2

/-- C10 witness: the suppression theorem at a concrete run — stability
check enabled with a failing check, acceptance at t = 5, second event for
the same path at t = 11/2 (half a window later). -/
theorem C10_witness :
    (postEvent (mkHandler ["modified"] "http://x" "Bearer t" "*.csv" true 3)
      { cwd := "/", env := fun _ => none, stabilityResult := false,
        payloadExn := none, headerExn := none,
        postResult := Except.ok { status_code := 200, text := "ok" } }
      { src_path := "/data/a.csv", event_type := "modified", is_directory := false }
      0).1 = .dropped ∧
    (onAnyEvent (mkHandler ["modified"] "http://x" "Bearer t" "*.csv" true 3)
      (onAnyEvent (mkHandler ["modified"] "http://x" "Bearer t" "*.csv" true 3)
        { last_event_time := [], nextId := 0 }
        { src_path := "/data/a.csv", event_type := "modified", is_directory := false }
        5).1
      { src_path := "/data/a.csv", event_type := "modified", is_directory := false }
      (11 / 2)).2.1 = none := by
  have hacc := onAnyEvent_accept (mkHandler ["modified"] "http://x" "Bearer t" "*.csv" true 3)
    { last_event_time := [], nextId := 0 }
    { src_path := "/data/a.csv", event_type := "modified", is_directory := false }
    5 rfl (by decide) (by show ¬ (5 : ℚ) - lookupTime [] "/data/a.csv" < _; norm_num [mkHandler, lookupTime, List.find?]) (by decide)
  have h := C10_dropped_event_still_suppresses
    (mkHandler ["modified"] "http://x" "Bearer t" "*.csv" true 3)
    { last_event_time := [], nextId := 0 }
    { src_path := "/data/a.csv", event_type := "modified", is_directory := false }
    { src_path := "/data/a.csv", event_type := "modified", is_directory := false }
    { cwd := "/", env := fun _ => none, stabilityResult := false,
      payloadExn := none, headerExn := none,
      postResult := Except.ok { status_code := 200, text := "ok" } }
    5 (11 / 2)
    { event := { src_path := "/data/a.csv", event_type := "modified",
                 is_directory := false },
      event_id := 0, time := 5 }
    (by rw [hacc]) rfl rfl rfl (by norm_num [mkHandler])
  exact ⟨h.1, h.2.2.1⟩

/-! ## Run-level lemmas about correlation identifiers -/

/-- Every log line of the stability-start prefix carries the identifier. -/
lemma stabilityStartLogs_eventId (cfg : HandlerConfig) (eid : Nat) :
    ∀ l ∈ stabilityStartLogs cfg eid, l.eventId = eid := by
  unfold stabilityStartLogs
  split <;> simp


/-- The handler state right after an acceptance at time `now`
(the update of src/main.py lines 56-58). -/
def acceptState (st : HandlerState) (ev : RawEvent) (now : ℚ) : HandlerState :=
  { last_event_time := insertTime st.last_event_time ev.src_path now,
    nextId := st.nextId + 1 }

/-- Along a run, dispatch identifiers are strictly increasing, bounded
below by the starting counter, and the counter advances by exactly one per
dispatch. -/
lemma runEvents_ids (cfg : HandlerConfig) :
    ∀ evts st,
      List.Pairwise (fun a b => a.event_id < b.event_id)
        (runEvents cfg st evts).2.1 ∧
      (∀ d ∈ (runEvents cfg st evts).2.1, st.nextId ≤ d.event_id) ∧
      (runEvents cfg st evts).1.nextId =
        st.nextId + (runEvents cfg st evts).2.1.length := by
  intro evts
  induction evts with
  | nil =>
    intro st
    simp [runEvents]
  | cons p rest ih =>
    intro st
    obtain ⟨ev, t⟩ := p
    rcases onAnyEvent_cases cfg st ev t with hc | ⟨_, _, _, _, hc⟩
    · have hstep : runEvents cfg st ((ev, t) :: rest) = runEvents cfg st rest := by
        simp [runEvents, hc]
      rw [hstep]
      exact ih st
    · have hc2 : onAnyEvent cfg st ev t =
          (acceptState st ev t,
           some { event := ev, event_id := st.nextId, time := t },
           [{ level := .info, eventId := st.nextId, tag := .detected }]) := hc
      have hstep : runEvents cfg st ((ev, t) :: rest) =
          ((runEvents cfg (acceptState st ev t) rest).1,
           { event := ev, event_id := st.nextId, time := t } ::
             (runEvents cfg (acceptState st ev t) rest).2.1,
           { level := .info, eventId := st.nextId, tag := .detected } ::
             (runEvents cfg (acceptState st ev t) rest).2.2) := by
        simp [runEvents, hc2]
      rw [hstep]
      have ihr := ih (acceptState st ev t)
      have hnext : (acceptState st ev t).nextId = st.nextId + 1 := rfl
      refine ⟨?_, ?_, ?_⟩
      · refine List.Pairwise.cons ?_ ihr.1
        intro b hb
        show st.nextId < b.event_id
        have hlb := ihr.2.1 b hb
        rw [hnext] at hlb
        omega
      · intro d hd
        rcases List.mem_cons.mp hd with h1 | h1
        · rw [h1]
        · have hlb := ihr.2.1 d h1
          rw [hnext] at hlb
          omega
      · have hcount := ihr.2.2
        rw [hnext] at hcount
        simp only [List.length_cons]
        omega

/-- Every log line `post_event` emits carries the correlation identifier it
was called with. -/
lemma postEvent_logs_eventId (cfg : HandlerConfig) (denv : DispatchEnv) (ev : RawEvent)
    (eid : Nat) : ∀ l ∈ (postEvent cfg denv ev eid).2.2, l.eventId = eid := by
  intro l hl
  by_cases hsb : (cfg.file_stability_check_enabled && !denv.stabilityResult) = true
  · obtain ⟨he, hs⟩ : cfg.file_stability_check_enabled = true ∧
        denv.stabilityResult = false := by simpa using hsb
    rw [postEvent_drop cfg denv ev eid he hs] at hl
    rcases List.mem_cons.mp hl with h1 | h1
    · rw [h1]
    · rw [List.mem_singleton.mp h1]
  · have hsb2 : (cfg.file_stability_check_enabled && !denv.stabilityResult) = false := by
      revert hsb
      cases cfg.file_stability_check_enabled && !denv.stabilityResult <;> simp
    cases hp : denv.payloadExn with
    | some m =>
      rw [postEvent_payload_exn cfg denv ev eid m hsb2 hp] at hl
      rcases List.mem_append.mp hl with h1 | h1
      · exact stabilityStartLogs_eventId cfg eid l h1
      · rw [List.mem_singleton.mp h1]
    | none =>
      cases hh : denv.headerExn with
      | some m =>
        rw [postEvent_header_exn cfg denv ev eid m hsb2 hp hh] at hl
        rcases List.mem_append.mp hl with h1 | h1
        · exact stabilityStartLogs_eventId cfg eid l h1
        · rw [List.mem_singleton.mp h1]
      | none =>
        cases hres : denv.postResult with
        | error m =>
          rw [postEvent_net_exn cfg denv ev eid m hsb2 hp hh hres] at hl
          rcases List.mem_append.mp hl with h1 | h1
          · exact stabilityStartLogs_eventId cfg eid l h1
          · rcases List.mem_cons.mp h1 with h2 | h2
            · rw [h2]
            · rw [List.mem_singleton.mp h2]
        | ok resp =>
          rw [postEvent_response cfg denv ev eid resp hsb2 hp hh hres] at hl
          by_cases h200 : resp.status_code = 200
          · rw [if_pos h200] at hl
            rcases List.mem_append.mp hl with h1 | h1
            · exact stabilityStartLogs_eventId cfg eid l h1
            · rcases List.mem_cons.mp h1 with h2 | h2
              · rw [h2]
              · rw [List.mem_singleton.mp h2]
          · rw [if_neg h200] at hl
            rcases List.mem_append.mp hl with h1 | h1
            · exact stabilityStartLogs_eventId cfg eid l h1
            · rcases List.mem_cons.mp h1 with h2 | h2
              · rw [h2]
              · rw [List.mem_singleton.mp h2]

/-- Every request `post_event` issues is exactly the built request (and in
particular carries the correlation identifier in its payload). -/
lemma postEvent_requests_built (cfg : HandlerConfig) (denv : DispatchEnv) (ev : RawEvent)
    (eid : Nat) :
    ∀ req ∈ (postEvent cfg denv ev eid).2.1, req = builtRequest cfg denv ev eid := by
  intro req hreq
  by_cases hsb : (cfg.file_stability_check_enabled && !denv.stabilityResult) = true
  · obtain ⟨he, hs⟩ : cfg.file_stability_check_enabled = true ∧
        denv.stabilityResult = false := by simpa using hsb
    rw [postEvent_drop cfg denv ev eid he hs] at hreq
    simp at hreq
  · have hsb2 : (cfg.file_stability_check_enabled && !denv.stabilityResult) = false := by
      revert hsb
      cases cfg.file_stability_check_enabled && !denv.stabilityResult <;> simp
    cases hp : denv.payloadExn with
    | some m =>
      rw [postEvent_payload_exn cfg denv ev eid m hsb2 hp] at hreq
      simp at hreq
    | none =>
      cases hh : denv.headerExn with
      | some m =>
        rw [postEvent_header_exn cfg denv ev eid m hsb2 hp hh] at hreq
        simp at hreq
      | none =>
        cases hres : denv.postResult with
        | error m =>
          rw [postEvent_net_exn cfg denv ev eid m hsb2 hp hh hres] at hreq
          exact List.mem_singleton.mp hreq
        | ok resp =>
          rw [postEvent_response cfg denv ev eid resp hsb2 hp hh hres] at hreq
          by_cases h200 : resp.status_code = 200
          · rw [if_pos h200] at hreq
            exact List.mem_singleton.mp hreq
          · rw [if_neg h200] at hreq
            exact List.mem_singleton.mp hreq

/-! ## Claim C8 -/

/-- C8: correlation identifiers.  Across any run, dispatched events carry
pairwise distinct identifiers and the identifier supply advances by exactly
one per accepted event (exactly one identifier generated per acceptance).
The accepted event's identifier is the one drawn at acceptance and every
log line of the acceptance carries it; every log line and every issued
request payload of the dispatch carry the identifier the dispatch was
started with; and every log line of the stability check carries the
identifier it was called with. -/
theorem C8_correlation_identifiers (cfg : HandlerConfig) :
    (∀ st evts,
      List.Pairwise (fun a b => a.event_id ≠ b.event_id)
        (runEvents cfg st evts).2.1 ∧
      (runEvents cfg st evts).1.nextId =
        st.nextId + (runEvents cfg st evts).2.1.length) ∧
    (∀ st ev now st2 d logs, onAnyEvent cfg st ev now = (st2, some d, logs) →
      d.event_id = st.nextId ∧ ∀ l ∈ logs, l.eventId = d.event_id) ∧
    (∀ denv ev eid l, l ∈ (postEvent cfg denv ev eid).2.2 → l.eventId = eid) ∧
    (∀ denv ev eid req, req ∈ (postEvent cfg denv ev eid).2.1 →
      req.body = jsonDumpsPayload
        { filepath := (splitPath (absPath denv.cwd ev.src_path)).1,
          filename := (splitPath (absPath denv.cwd ev.src_path)).2,
          event_id := toString eid }) ∧
    (∀ wait obs eid fuel b outLogs,
      checkFileStability wait obs eid fuel = some (b, outLogs) →
      ∀ l ∈ outLogs, l.eventId = eid) := by
  refine ⟨?_, ?_, ?_, ?_, ?_⟩
  · intro st evts
    have h := runEvents_ids cfg evts st
    exact ⟨h.1.imp (fun hlt => Nat.ne_of_lt hlt), h.2.2⟩
  · intro st ev now st2 d logs h
    rcases onAnyEvent_cases cfg st ev now with hc | ⟨_, _, _, _, hc⟩
    · rw [hc] at h
      simp at h
    · rw [hc] at h
      simp only [Prod.mk.injEq, Option.some.injEq] at h
      obtain ⟨hA, hB, hC⟩ := h
      constructor
      · rw [← hB]
      · intro l hl
        rw [← hC] at hl
        rw [List.mem_singleton.mp hl, ← hB]
  · intro denv ev eid l hl
    exact postEvent_logs_eventId cfg denv ev eid l hl
  · intro denv ev eid req hreq
    rw [postEvent_requests_built cfg denv ev eid req hreq]
    rfl
  · intro wait obs eid fuel b outLogs h
    exact stabLoop_logs_eventId wait obs eid fuel 0 0 none [] b outLogs (by simp) h

/-- C8 witness: the identifier theorem at a concrete run of two accepted
events (distinct identifiers 0 and 1) and at the concrete acceptance log
of the first event (tagged with its identifier). -/
theorem C8_witness :
    List.Pairwise (fun a b => a.event_id ≠ b.event_id)
      (runEvents (mkHandler ["modified"] "http://x" "Bearer t" "*.csv" false 5)
        { last_event_time := [], nextId := 0 }
        [({ src_path := "/data/a.csv", event_type := "modified",
            is_directory := false }, 5),
         ({ src_path := "/data/a.csv", event_type := "modified",
            is_directory := false }, 20)]).2.1 ∧
    ({ level := .info, eventId := 0, tag := .detected } : LogLine).eventId = 0 := by
  have hacc := onAnyEvent_accept (mkHandler ["modified"] "http://x" "Bearer t" "*.csv" false 5)
    { last_event_time := [], nextId := 0 }
    { src_path := "/data/a.csv", event_type := "modified", is_directory := false }
    5 rfl (by decide)
    (by show ¬ (5 : ℚ) - lookupTime [] "/data/a.csv" < _
        norm_num [mkHandler, lookupTime, List.find?])
    (by decide)
  constructor
  · exact ((C8_correlation_identifiers
      (mkHandler ["modified"] "http://x" "Bearer t" "*.csv" false 5)).1
      { last_event_time := [], nextId := 0 } _).1
  · exact ((C8_correlation_identifiers
      (mkHandler ["modified"] "http://x" "Bearer t" "*.csv" false 5)).2.1
      { last_event_time := [], nextId := 0 }
      { src_path := "/data/a.csv", event_type := "modified", is_directory := false }
      5
      { last_event_time := insertTime [] "/data/a.csv" 5, nextId := 0 + 1 }
      { event := { src_path := "/data/a.csv", event_type := "modified",
                   is_directory := false },
        event_id := 0, time := 5 }
      [{ level := .info, eventId := 0, tag := .detected }]
      (by rw [hacc])).2
      { level := .info, eventId := 0, tag := .detected }
      (by simp)
